import Mathlib

/-!
Verification of `packages/resources/src/StaticSite.ts` from the
`serverless-stack` repository, against its natural-language specification.

The file shallowly embeds the pure content of the `StaticSite` construct:

* the MD5-based deployment identifier (`deployId`, constructor lines 135-139);
* the environment-token / `replaceValues` rule compilation (lines 97-118);
* the build pipeline `buildApp` (lines 289-378), with the external
  filesystem, `path` functions, the build command and the per-part asset
  fingerprints passed in as explicit inputs;
* the archiver-output collection loop (lines 364-378);
* the custom-domain validation (lines 186-214);
* the CloudFront distribution origin path (line 515) and the
  `Custom::SSTBucketDeployment` custom-resource properties (lines 558-592).

Machine words are modelled as `Nat` with explicit reduction modulo `2 ^ 32`.
-/

/-- One `BaseSiteReplaceProps` substitution rule: glob pattern, search token,
replacement text. -/
structure ReplaceProp where
  files : String
  search : String
  replace : String

/-- One uploaded archive as seen by the construct: the CDK construct id and
the content fingerprint (`s3Assets.Asset.assetHash`). -/
structure Asset where
  name : String
  assetHash : String

/-- The environment placeholder token for a variable name: two opening
braces, one space, the name, one space, two closing braces
(`StaticSite.ts` line 105). -/
def envToken (key : String) : String := "\x7b\x7b " ++ key ++ " \x7d\x7d"

/-- One step of the constructor loop over `Object.entries(props.environment)`
(lines 104-118): two rules are pushed onto the accumulated `replaceValues`. -/
def replaceStep (acc : List ReplaceProp) (kv : String × String) : List ReplaceProp :=
  acc ++
    [ { files := "**/*.js", search := envToken kv.1, replace := kv.2 },
      { files := "index.html", search := envToken kv.1, replace := kv.2 } ]

/-- The final `this.replaceValues`: the user-supplied rules (line 97)
followed by the two generated rules per declared environment variable. -/
def compileReplaceValues (user : List ReplaceProp) (env : List (String × String)) :
    List ReplaceProp :=
  env.foldl replaceStep user

/-- Lookup in the plain `props.environment` object (line 96), before the
token rewriting loop runs. -/
def envLookup (declared : List (String × String)) (k : String) : Option String :=
  (declared.find? (fun kv => kv.1 == k)).map (fun kv => kv.2)

/-- One step of the loop body `this.environment[key] = token` (line 106). -/
def envStep (e : String → Option String) (kv : String × String) : String → Option String :=
  fun k => if k = kv.1 then some (envToken kv.1) else e k

/-- The final `this.environment` map: starts as `props.environment`
(line 96) and has every declared key overwritten with its token (line 106). -/
def constructorEnv (declared : List (String × String)) : String → Option String :=
  declared.foldl envStep (envLookup declared)

/-- The environment passed to the build command,
`\x7b...process.env, ...this.environment\x7d` (line 325): `this.environment`
entries override the ambient process environment. -/
def buildCommandEnv (processEnv : String → Option String)
    (declared : List (String × String)) : String → Option String :=
  fun k =>
    match constructorEnv declared k with
    | some v => some v
    | none => processEnv k

/-- JavaScript truthiness of an optional string (absent and `""` are falsy). -/
def optStrTruthy : Option String → Bool
  | none => false
  | some s => !(s == "")

/-- JavaScript `o || d` for an optional string `o` (used for
`props.buildOutput || "."`, line 305). -/
def strOrDefault (o : Option String) (d : String) : String :=
  match o with
  | none => d
  | some s => if s == "" then d else s

/-! ### MD5

A shallow embedding of the MD5 digest used by
`crypto.createHash("md5").update(s).digest("hex")` (lines 135-138).
All 32-bit words are `Nat` values kept below `2 ^ 32 = 4294967296` by
explicit `% 4294967296` reductions. -/

/-- Per-operation left-rotation amounts of MD5. -/
def mdS : List Nat :=
  [ 7, 12, 17, 22, 7, 12, 17, 22, 7, 12, 17, 22, 7, 12, 17, 22,
    5, 9, 14, 20, 5, 9, 14, 20, 5, 9, 14, 20, 5, 9, 14, 20,
    4, 11, 16, 23, 4, 11, 16, 23, 4, 11, 16, 23, 4, 11, 16, 23,
    6, 10, 15, 21, 6, 10, 15, 21, 6, 10, 15, 21, 6, 10, 15, 21 ]

/-- The 64 MD5 sine-derived additive constants. -/
def mdK : List Nat :=
  [ 0xd76aa478, 0xe8c7b756, 0x242070db, 0xc1bdceee,
    0xf57c0faf, 0x4787c62a, 0xa8304613, 0xfd469501,
    0x698098d8, 0x8b44f7af, 0xffff5bb1, 0x895cd7be,
    0x6b901122, 0xfd987193, 0xa679438e, 0x49b40821,
    0xf61e2562, 0xc040b340, 0x265e5a51, 0xe9b6c7aa,
    0xd62f105d, 0x02441453, 0xd8a1e681, 0xe7d3fbc8,
    0x21e1cde6, 0xc33707d6, 0xf4d50d87, 0x455a14ed,
    0xa9e3e905, 0xfcefa3f8, 0x676f02d9, 0x8d2a4c8a,
    0xfffa3942, 0x8771f681, 0x6d9d6122, 0xfde5380c,
    0xa4beea44, 0x4bdecfa9, 0xf6bb4b60, 0xbebfbc70,
    0x289b7ec6, 0xeaa127fa, 0xd4ef3085, 0x04881d05,
    0xd9d4d039, 0xe6db99e5, 0x1fa27cf8, 0xc4ac5665,
    0xf4292244, 0x432aff97, 0xab9423a7, 0xfc93a039,
    0x655b59c3, 0x8f0ccc92, 0xffeff47d, 0x85845dd1,
    0x6fa87e4f, 0xfe2ce6e0, 0xa3014314, 0x4e0811a1,
    0xf7537e82, 0xbd3af235, 0x2ad7d2bb, 0xeb86d391 ]

/-- Left rotation of a 32-bit word (input assumed `< 2 ^ 32`). -/
def rotl32 (x s : Nat) : Nat :=
  ((x <<< s) % 4294967296) + (x >>> (32 - s))

/-- One of the 64 MD5 operations, acting on the state `(a, b, c, d)`;
`m` is the current 16-word message block. -/
def md5Round (m : List Nat) (st : Nat × Nat × Nat × Nat) (i : Nat) :
    Nat × Nat × Nat × Nat :=
  match st with
  | (a, b, c, d) =>
    let f :=
      if i < 16 then (b &&& c) ||| ((b ^^^ 4294967295) &&& d)
      else if i < 32 then (d &&& b) ||| ((d ^^^ 4294967295) &&& c)
      else if i < 48 then b ^^^ c ^^^ d
      else c ^^^ (b ||| (d ^^^ 4294967295))
    let g :=
      if i < 16 then i
      else if i < 32 then (5 * i + 1) % 16
      else if i < 48 then (3 * i + 5) % 16
      else (7 * i) % 16
    let tmp := (f + a + mdK.getD i 0 + m.getD g 0) % 4294967296
    (d, (b + rotl32 tmp (mdS.getD i 0)) % 4294967296, b, c)

/-- Processing of one 64-byte chunk: decode 16 little-endian words, run the
64 operations, add the result into the running state. -/
def md5Chunk (st : Nat × Nat × Nat × Nat) (chunk : List Nat) :
    Nat × Nat × Nat × Nat :=
  let m := (List.range 16).map (fun j =>
    chunk.getD (4 * j) 0 + 256 * chunk.getD (4 * j + 1) 0 +
      65536 * chunk.getD (4 * j + 2) 0 + 16777216 * chunk.getD (4 * j + 3) 0)
  match st with
  | (h0, h1, h2, h3) =>
    match (List.range 64).foldl (md5Round m) (h0, h1, h2, h3) with
    | (a, b, c, d) =>
      ((h0 + a) % 4294967296, (h1 + b) % 4294967296,
        (h2 + c) % 4294967296, (h3 + d) % 4294967296)

/-- Split a byte list into 64-byte chunks. -/
def chunks64 (l : List Nat) : List (List Nat) :=
  if _h : l.length = 0 then []
  else l.take 64 :: chunks64 (l.drop 64)
termination_by l.length
decreasing_by simp [List.length_drop]; omega

/-- MD5 padding: a `0x80` byte, zeros to 56 mod 64, then the bit length as
eight little-endian bytes. -/
def md5Pad (msg : List Nat) : List Nat :=
  msg ++ 128 :: List.replicate ((119 - msg.length % 64) % 64) 0 ++
    (List.range 8).map (fun i => 8 * msg.length / 256 ^ i % 256)

/-- The four 32-bit state words of the MD5 digest of a byte list. -/
def md5Words (msg : List Nat) : Nat × Nat × Nat × Nat :=
  let r := (chunks64 (md5Pad msg)).foldl md5Chunk
    (0x67452301, 0xefcdab89, 0x98badcfe, 0x10325476)
  (r.1 % 4294967296, r.2.1 % 4294967296, r.2.2.1 % 4294967296, r.2.2.2 % 4294967296)

/-- Little-endian byte serialization of one 32-bit word. -/
def word32ToBytes (x : Nat) : List Nat :=
  [x % 256, x / 256 % 256, x / 65536 % 256, x / 16777216 % 256]

/-- The 16 digest bytes of MD5. -/
def md5Digest (msg : List Nat) : List Nat :=
  word32ToBytes (md5Words msg).1 ++ word32ToBytes (md5Words msg).2.1 ++
    word32ToBytes (md5Words msg).2.2.1 ++ word32ToBytes (md5Words msg).2.2.2

/-- Lowercase hexadecimal digit for a value below 16. -/
def hexChar (n : Nat) : Char :=
  if n < 10 then Char.ofNat (48 + n) else Char.ofNat (87 + n)

/-- Two lowercase hex characters per byte, in order. -/
def hexOfBytes : List Nat → List Char
  | [] => []
  | b :: rest => hexChar (b / 16) :: hexChar (b % 16) :: hexOfBytes rest

/-- `crypto.createHash("md5").update(msg).digest("hex")` on a byte list. -/
def md5Hex (msg : List Nat) : String :=
  String.mk (hexOfBytes (md5Digest msg))

/-- The digest as a single natural number below `2 ^ 128` (little-endian
word order); used only for counting arguments about the digest space. -/
def md5Nat (msg : List Nat) : Nat :=
  (md5Words msg).1 + 4294967296 * ((md5Words msg).2.1 +
    4294967296 * ((md5Words msg).2.2.1 + 4294967296 * (md5Words msg).2.2.2))

/-- UTF-8 encoding of one Unicode scalar value. -/
def utf8Bytes (c : Nat) : List Nat :=
  if c < 128 then [c]
  else if c < 2048 then [192 + c / 64, 128 + c % 64]
  else if c < 65536 then [224 + c / 4096, 128 + c / 64 % 64, 128 + c % 64]
  else [240 + c / 262144, 128 + c / 4096 % 64, 128 + c / 64 % 64, 128 + c % 64]

/-- The UTF-8 bytes of a string, as fed to `hash.update` by Node. -/
def strBytes (s : String) : List Nat :=
  (s.data.map (fun c => utf8Bytes c.toNat)).flatten

/-- The deployment identifier (constructor lines 135-139): the fixed
sentinel under `sst start`, otherwise `deploy-` followed by the hex MD5
digest of the concatenated asset fingerprints. -/
def resolveDeployId (assets : List Asset) (isSstStart : Bool) : String :=
  if isSstStart then "deploy-live"
  else "deploy-" ++ md5Hex (strBytes (String.join (assets.map Asset.assetHash)))

/-- The string `'a'` repeated `n` times; an injection from naturals into
fingerprint strings, used for counting arguments. -/
def encStr (n : Nat) : String := String.mk (List.replicate n 'a')

/-! ### Collecting the archiver output (lines 364-378) -/

/-- The loop of lines 366-377: starting from `partId`, keep taking
`part<i>.zip` while it exists in the zip directory (`parts` is the set of
part indices present); stop at the first missing index. `fuel` bounds the
recursion; `collectParts` supplies enough of it. -/
def collectLoop (parts : Finset ℕ) : Nat → Nat → List ℕ
  | 0, _ => []
  | fuel + 1, partId =>
    if partId ∈ parts then partId :: collectLoop parts fuel (partId + 1) else []

/-- The part indices collected by the loop, starting at part 0. Any run of
contiguous indices present in `parts` has length at most `parts.card`, so
`parts.card + 1` fuel never exhausts before the first missing index. -/
def collectParts (parts : Finset ℕ) : List ℕ :=
  collectLoop parts (parts.card + 1) 0

/-- The `s3Assets.Asset` list built by the loop: construct id
`Asset<partId>` and the external content fingerprint of that part. -/
def collectAssets (parts : Finset ℕ) (partHash : Nat → String) : List Asset :=
  (collectParts parts).map (fun i => { name := "Asset" ++ toString i, assetHash := partHash i })

/-! ### The bundler (spec-modelled) -/

/-- One greedy packing step: close the current bundle when adding the next
entry would exceed the limit; a single oversized entry still gets its own
bundle. State is `(closed bundles, current bundle, current size)`. -/
def greedyStep (limit : Nat)
    (acc : List (List (String × Nat)) × List (String × Nat) × Nat)
    (entry : String × Nat) :
    List (List (String × Nat)) × List (String × Nat) × Nat :=
  match acc with
  | (closed, current, size) =>
    if current.isEmpty then (closed, [entry], entry.2)
    else if limit < size + entry.2 then (closed ++ [current], [entry], entry.2)
    else (closed, current ++ [entry], size + entry.2)

/-- Modelled from the spec: the Bundler (`assets/StaticSite/archiver.js`,
invoked by `buildApp` at lines 343-362) is part of this repository but not
among the sources under verification. Per spec section 4.1 it traverses the
build-output entries in their given deterministic order, greedily packs them
into size-bounded bundles written as `part0.zip ... part(n-1).zip`, and
fails with `BuildOutputEmpty` when the tree contains zero files. -/
def bundlerSplit (tree : List (String × Nat)) (sizeLimit : Nat) :
    Except Unit (List (List (String × Nat))) :=
  if tree.isEmpty then Except.error ()
  else
    match tree.foldl (greedyStep sizeLimit) ([], [], 0) with
    | (closed, current, _) =>
      Except.ok (if current.isEmpty then closed else closed ++ [current])

/-! ### The build pipeline `buildApp` (lines 289-378) -/

/-- The ways `buildApp` throws, with their payloads (lines 308-314, 327-331,
336-340, 358-362). -/
inductive BuildError where
  | noPathFound (resolvedPath : String) (nodeId : String)
  | buildFailed (nodeId : String)
  | noBuildOutput (resolvedOutputPath : String) (nodeId : String)
  | packageFailed (nodeId : String)

/-- The message text of each `buildApp` error, as thrown by the source. -/
def buildErrorMessage : BuildError → String
  | BuildError.noPathFound p nodeId =>
    "No path found at \"" ++ p ++ "\" for the \"" ++ nodeId ++ "\" StaticSite."
  | BuildError.buildFailed nodeId =>
    "There was a problem building the \"" ++ nodeId ++ "\" StaticSite."
  | BuildError.noBuildOutput p nodeId =>
    "No build output found at \"" ++ p ++ "\" for the \"" ++ nodeId ++ "\" StaticSite."
  | BuildError.packageFailed nodeId =>
    "There was a problem generating the \"" ++ nodeId ++ "\" StaticSite package."

/-- Everything `buildApp` reads: the construct's props and flags together
with its external collaborators (filesystem, `path` resolution, the opaque
build command outcome, the build-output tree handed to the bundler, and the
CDK content fingerprints of the stub and of each zip part). -/
structure BuildInputs where
  nodeId : String
  sitePath : String
  buildCommand : Option String
  buildOutput : Option String
  fileSizeLimit : Nat
  isSstStart : Bool
  skipBuild : Bool
  fsExists : String → Bool
  resolvePath : String → String
  resolveJoin : String → String → String
  buildCmdOk : Bool
  outputTree : List (String × Nat)
  stubHash : String
  partHash : Nat → String

/-- `StaticSite.buildApp` (lines 289-378): stub asset under `sst start` or
skipped build; otherwise validate the site path, run the build command,
validate the build output, run the archiver, and collect the produced
`part<i>.zip` files in index order. -/
def buildApp (i : BuildInputs) : Except BuildError (List Asset) :=
  if i.isSstStart || i.skipBuild then
    Except.ok [ { name := "Asset", assetHash := i.stubHash } ]
  else if !(i.fsExists i.sitePath) then
    Except.error (BuildError.noPathFound (i.resolvePath i.sitePath) i.nodeId)
  else if optStrTruthy i.buildCommand && !i.buildCmdOk then
    Except.error (BuildError.buildFailed i.nodeId)
  else
    let siteOutputPath := i.resolveJoin i.sitePath (strOrDefault i.buildOutput ".")
    if !(i.fsExists siteOutputPath) then
      Except.error (BuildError.noBuildOutput siteOutputPath i.nodeId)
    else
      match bundlerSplit i.outputTree i.fileSizeLimit with
      | Except.error _ => Except.error (BuildError.packageFailed i.nodeId)
      | Except.ok bundles =>
        Except.ok (collectAssets (Finset.range bundles.length) i.partHash)

/-! ### The constructed site (lines 135-151, 505-521, 558-592) -/

/-- The claim-relevant properties of the `Custom::SSTBucketDeployment`
custom resource (lines 562-591). `destinationBucketKeyRoot` models the
`DestinationBucketKeyPrefix` property. -/
structure SstDeploymentProps where
  destinationBucketKeyRoot : String
  distributionPaths : List String
  replaceValues : List ReplaceProp

/-- The observable outcome of the constructor once `buildApp` has returned:
the rewritten environment, the compiled substitution rules, the assets, the
deployment identifier, the CloudFront origin path (line 515), and the
custom resources created by `createS3Deployment` (one per constructor run). -/
structure SiteModel where
  environment : String → Option String
  replaceValues : List ReplaceProp
  assets : List Asset
  deployId : String
  originPath : String
  customResources : List SstDeploymentProps

/-- Lines 96-151 after `buildApp` has produced `assets`: compile the
environment tokens and substitution rules, resolve the deployment id,
point the distribution origin at it, and create the single deployment
custom resource. -/
def sstConstructAfterBuild (user : List ReplaceProp) (env : List (String × String))
    (isSstStart : Bool) (assets : List Asset) : SiteModel :=
  let replaceValues := compileReplaceValues user env
  let deployId := resolveDeployId assets isSstStart
  { environment := constructorEnv env
    replaceValues := replaceValues
    assets := assets
    deployId := deployId
    originPath := deployId
    customResources :=
      [ { destinationBucketKeyRoot := deployId
          distributionPaths := [ "/*" ]
          replaceValues := replaceValues } ] }

/-! ### Custom-domain validation (lines 186-214) -/

/-- A hosted-zone reference: either a zone name string or an
`route53.IHostedZone` construct. -/
inductive HostedZoneRef where
  | zoneName (s : String)
  | construct

/-- `StaticSiteDomainProps` (lines 47-53); the certificate is opaque. -/
structure StaticSiteDomainProps where
  domainName : String
  domainAlias : Option String
  hostedZone : Option HostedZoneRef
  certificate : Option Unit
  isExternalDomain : Option Bool

/-- `props.customDomain`: a plain domain string or a structured object. -/
inductive CustomDomain where
  | plain (name : String)
  | structured (d : StaticSiteDomainProps)

/-- Error text of lines 199-201. -/
def certRequiredMsg : String :=
  "A valid certificate is required when \"isExternalDomain\" is set to \"true\"."

/-- Error text of lines 204-206. -/
def domainAliasMsg : String :=
  "Domain alias is only supported for domains hosted on Amazon Route 53. Do not set the \"customDomain.domainAlias\" when \"isExternalDomain\" is enabled."

/-- Error text of lines 209-211. -/
def hostedZoneMsg : String :=
  "Hosted zones can only be configured for domains hosted on Amazon Route 53. Do not set the \"customDomain.hostedZone\" when \"isExternalDomain\" is enabled."

/-- JavaScript truthiness of the `hostedZone` field: absent and the empty
zone name are falsy; a construct is truthy. -/
def hostedZoneTruthy : Option HostedZoneRef → Bool
  | none => false
  | some (HostedZoneRef.zoneName s) => !(s == "")
  | some HostedZoneRef.construct => true

/-- `StaticSite.validateCustomDomainSettings` (lines 186-214), with
JavaScript truthiness for the `if` conditions. -/
def validateCustomDomainSettings : Option CustomDomain → Except String Unit
  | none => Except.ok ()
  | some (CustomDomain.plain _) => Except.ok ()
  | some (CustomDomain.structured d) =>
    if d.isExternalDomain = some true then
      if d.certificate.isNone then Except.error certRequiredMsg
      else if optStrTruthy d.domainAlias then Except.error domainAliasMsg
      else if hostedZoneTruthy d.hostedZone then Except.error hostedZoneMsg
      else Except.ok ()
    else Except.ok ()

/-! ### Concrete inputs used by the witnesses -/

/-- Inputs whose site path is missing. -/
def sampleMissingSite : BuildInputs :=
  { nodeId := "Site"
    sitePath := "missing"
    buildCommand := none
    buildOutput := none
    fileSizeLimit := 200
    isSstStart := false
    skipBuild := false
    fsExists := fun _ => false
    resolvePath := fun p => "/work/" ++ p
    resolveJoin := fun a b => "/work/" ++ a ++ "/" ++ b
    buildCmdOk := true
    outputTree := [ ("index.html", 1) ]
    stubHash := "stub"
    partHash := fun _ => "part" }

/-- Inputs whose site path exists but whose build output is missing. -/
def sampleMissingOutput : BuildInputs :=
  { sampleMissingSite with
    sitePath := "site"
    fsExists := fun p => p == "site" }

/-- Inputs whose paths all exist but whose build output has zero files. -/
def sampleEmptyOutput : BuildInputs :=
  { sampleMissingSite with
    fsExists := fun _ => true
    outputTree := [] }

/-- Inputs for the skipped build: `sst start` off, `skipBuild` on, and a
filesystem on which nothing exists at all. -/
def sampleSkipBuild : BuildInputs :=
  { sampleMissingSite with
    skipBuild := true }

/-! ## Helper lemmas -/

/-- Joining a one-element list of strings is the identity. -/
theorem stringJoinSingleton (s : String) : String.join [s] = s := by
  cases s
  rfl

/-- String append is left-cancellative. -/
theorem strAppendLeftCancel {s x y : String} (h : s ++ x = s ++ y) : x = y := by
  cases s with
  | mk ls =>
    cases x with
    | mk lx =>
      cases y with
      | mk ly =>
        have hd : ls ++ lx = ls ++ ly := congrArg String.data h
        rw [List.append_cancel_left hd]

/-- Two hex characters per byte. -/
theorem hexOfBytes_length (l : List Nat) : (hexOfBytes l).length = 2 * l.length := by
  induction l with
  | nil => rfl
  | cons b rest ih =>
    simp only [hexOfBytes, List.length_cons, ih]
    omega

/-- The MD5 digest always has 16 bytes. -/
theorem md5Digest_length (msg : List Nat) : (md5Digest msg).length = 16 := by
  simp [md5Digest, word32ToBytes]

/-- The hex MD5 digest always has 32 characters. -/
theorem md5Hex_length (msg : List Nat) : (md5Hex msg).length = 32 := by
  have h : (md5Hex msg).length = (hexOfBytes (md5Digest msg)).length := rfl
  rw [h, hexOfBytes_length, md5Digest_length]

/-- A content-addressed identity is never the dev sentinel: the hash part
has 32 characters, so the lengths 39 and 11 differ. -/
theorem deployHash_ne_live (msg : List Nat) : "deploy-" ++ md5Hex msg ≠ "deploy-live" := by
  intro h
  have h1 := congrArg String.length h
  rw [String.length_append, md5Hex_length] at h1
  have h2 : ("deploy-" : String).length = 7 := rfl
  have h3 : ("deploy-live" : String).length = 11 := rfl
  omega

/-- Unfolding of the non-dev branch of the identity resolution. -/
theorem resolveDeployId_false (assets : List Asset) :
    resolveDeployId assets false =
      "deploy-" ++ md5Hex (strBytes (String.join (assets.map Asset.assetHash))) := rfl

/-- Without `sst start` the identity is never the sentinel. -/
theorem resolveDeployId_ne_live (assets : List Asset) :
    resolveDeployId assets false ≠ "deploy-live" :=
  deployHash_ne_live _

/-- The sentinel is produced exactly in dev mode. -/
theorem resolve_live_iff (assets : List Asset) (b : Bool) :
    (resolveDeployId assets b = "deploy-live") ↔ b = true := by
  cases b
  · exact iff_of_false (resolveDeployId_ne_live assets) (by simp)
  · simp [resolveDeployId]

/-- All four MD5 state words are below `2 ^ 32`. -/
theorem md5Words_bounds (msg : List Nat) :
    (md5Words msg).1 < 4294967296 ∧ (md5Words msg).2.1 < 4294967296 ∧
      (md5Words msg).2.2.1 < 4294967296 ∧ (md5Words msg).2.2.2 < 4294967296 := by
  refine ⟨?_, ?_, ?_, ?_⟩ <;> exact Nat.mod_lt _ (by omega)

/-- The packed digest number determines the four state words. -/
theorem md5Words_eq_of_md5Nat_eq {m n : List Nat} (h : md5Nat m = md5Nat n) :
    md5Words m = md5Words n := by
  obtain ⟨a1, b1, c1, d1⟩ := md5Words_bounds m
  obtain ⟨a2, b2, c2, d2⟩ := md5Words_bounds n
  unfold md5Nat at h
  have e1 : (md5Words m).1 = (md5Words n).1 := by omega
  have e2 : (md5Words m).2.1 = (md5Words n).2.1 := by omega
  have e3 : (md5Words m).2.2.1 = (md5Words n).2.2.1 := by omega
  have e4 : (md5Words m).2.2.2 = (md5Words n).2.2.2 := by omega
  have hm : md5Words m =
      ((md5Words m).1, (md5Words m).2.1, (md5Words m).2.2.1, (md5Words m).2.2.2) := rfl
  have hn : md5Words n =
      ((md5Words n).1, (md5Words n).2.1, (md5Words n).2.2.1, (md5Words n).2.2.2) := rfl
  rw [hm, hn, e1, e2, e3, e4]

/-- The hex digest is a function of the state words. -/
theorem md5Hex_congr {m n : List Nat} (h : md5Words m = md5Words n) :
    md5Hex m = md5Hex n := by
  unfold md5Hex md5Digest
  rw [h]

/-- The packed digest number is below `2 ^ 128`. -/
theorem md5Nat_lt (msg : List Nat) :
    md5Nat msg < 340282366920938463463374607431768211456 := by
  obtain ⟨a, b, c, d⟩ := md5Words_bounds msg
  unfold md5Nat
  omega

/-- `encStr` is injective: distinct repeat counts give distinct strings. -/
theorem encStr_injective {m n : Nat} (h : encStr m = encStr n) : m = n := by
  have h2 : List.replicate m 'a' = List.replicate n 'a' := congrArg String.data h
  have h3 := congrArg List.length h2
  simpa using h3

/-- There are infinitely many fingerprint strings but only finitely many
MD5 digests, so two distinct fingerprints share a digest. -/
theorem md5_collision :
    ∃ m n : Nat, m ≠ n ∧ md5Hex (strBytes (encStr m)) = md5Hex (strBytes (encStr n)) := by
  obtain ⟨m, n, hne, heq⟩ := Finite.exists_ne_map_eq_of_infinite
    (fun k : Nat => (⟨md5Nat (strBytes (encStr k)), md5Nat_lt _⟩ :
      Fin 340282366920938463463374607431768211456))
  exact ⟨m, n, hne, md5Hex_congr (md5Words_eq_of_md5Nat_eq (congrArg Fin.val heq))⟩

/-- The collection loop, started at `j` with the indices up to `n` present
and `n` absent, returns exactly the contiguous range from `j` to `n`. -/
theorem collectLoop_eq (parts : Finset ℕ) (n : ℕ)
    (hmem : ∀ i, i < n → i ∈ parts) (hnot : n ∉ parts) :
    ∀ fuel j, j ≤ n → n - j < fuel →
      collectLoop parts fuel j = List.range' j (n - j) := by
  intro fuel
  induction fuel with
  | zero => intro j hj hf; omega
  | succ fuel ih =>
    intro j hj hf
    by_cases hjn : j = n
    · subst hjn
      simp [collectLoop, hnot]
    · have hjlt : j < n := lt_of_le_of_ne hj hjn
      have hsub : n - j = (n - (j + 1)) + 1 := by omega
      rw [hsub, List.range'_succ]
      simp only [collectLoop, if_pos (hmem j hjlt)]
      rw [ih (j + 1) (by omega) (by omega)]

/-- With the indices below `n` present and `n` absent, the loop collects
exactly `0, 1, ..., n - 1`. -/
theorem collectParts_eq_range (parts : Finset ℕ) (n : ℕ)
    (hmem : ∀ i, i < n → i ∈ parts) (hnot : n ∉ parts) :
    collectParts parts = List.range n := by
  have hsub : Finset.range n ⊆ parts := by
    intro i hi
    exact hmem i (Finset.mem_range.mp hi)
  have hcard : n ≤ parts.card := by
    have h := Finset.card_le_card hsub
    simpa [Finset.card_range] using h
  have h := collectLoop_eq parts n hmem hnot (parts.card + 1) 0 (Nat.zero_le n) (by omega)
  rw [collectParts, h, Nat.sub_zero]
  exact (List.range_eq_range' n).symm

/-- The rule-compilation fold is the user rules followed by the two
generated rules for each declared variable, in declaration order. -/
theorem compileReplaceValues_eq (user : List ReplaceProp) (env : List (String × String)) :
    compileReplaceValues user env =
      user ++ (env.map (fun kv =>
        [ { files := "**/*.js", search := envToken kv.1, replace := kv.2 },
          { files := "index.html", search := envToken kv.1, replace := kv.2 } ])).flatten := by
  induction env generalizing user with
  | nil => simp [compileReplaceValues]
  | cons kv rest ih =>
    have h := ih (replaceStep user kv)
    simp only [compileReplaceValues, List.foldl_cons] at h ⊢
    rw [h, replaceStep]
    simp [List.append_assoc]

/-- Keys not written by the environment loop keep their initial value. -/
theorem envFold_notMem (l : List (String × String)) (k : String)
    (hk : k ∉ l.map Prod.fst) :
    ∀ init : String → Option String, l.foldl envStep init k = init k := by
  induction l with
  | nil => intro init; rfl
  | cons kv rest ih =>
    intro init
    have hk1 : k ≠ kv.1 := by
      intro h
      exact hk (by simp [h])
    have hk2 : k ∉ rest.map Prod.fst := by
      intro h
      exact hk (by simp [h])
    rw [List.foldl_cons, ih hk2 (envStep init kv)]
    simp [envStep, hk1]

/-- Every declared key ends up bound to its token by the loop. -/
theorem envFold_mem (l : List (String × String)) (k : String)
    (hk : k ∈ l.map Prod.fst) :
    ∀ init : String → Option String, l.foldl envStep init k = some (envToken k) := by
  induction l with
  | nil => simp at hk
  | cons kv rest ih =>
    intro init
    by_cases hr : k ∈ rest.map Prod.fst
    · rw [List.foldl_cons]
      exact ih hr (envStep init kv)
    · have hk1 : k = kv.1 := by
        rcases (by simpa using hk : k = kv.1 ∨ ∃ x, (k, x) ∈ rest) with h | ⟨x, hx⟩
        · exact h
        · exact absurd (List.mem_map.mpr ⟨(k, x), hx, rfl⟩) hr
      rw [List.foldl_cons, envFold_notMem rest k hr (envStep init kv)]
      simp [envStep, hk1]

/-! ## Claims -/

/-- Claim C1: for every sequence of uploaded archive handles, with dev mode
(`sst start`) off the resolved deployment identity is `deploy-` followed by
the hex MD5 digest of the concatenation, in bundle-index order, of the
per-archive content fingerprints; with dev mode on it is the fixed sentinel
`deploy-live` regardless of the archive contents. -/
theorem deployId_resolution (user : List ReplaceProp) (env : List (String × String))
    (assets : List Asset) :
    (sstConstructAfterBuild user env false assets).deployId =
      "deploy-" ++ md5Hex (strBytes (String.join (assets.map Asset.assetHash))) ∧
    (sstConstructAfterBuild user env true assets).deployId = "deploy-live" :=
  ⟨rfl, rfl⟩

/-- Claim C2 is false as stated: identity resolution concatenates the
fingerprints and hashes the result with MD5, and since there are infinitely
many fingerprints but only `2 ^ 128` digests, two sequences differing in
exactly one archive's fingerprint can share a digest and hence an identity.
This theorem proves the negation of the claim's second half (here for
one-element sequences, for which exactly one position differs). -/
theorem deployId_fingerprint_change_cex :
    ¬ (∀ l1 l2 : List Asset,
        (l1.map Asset.assetHash = l2.map Asset.assetHash →
          resolveDeployId l1 false = resolveDeployId l2 false) ∧
        (l1.length = l2.length →
          ∀ i, i < l1.length →
            (l1.map Asset.assetHash).getD i "" ≠ (l2.map Asset.assetHash).getD i "" →
            (∀ j, j < l1.length → j ≠ i →
              (l1.map Asset.assetHash).getD j "" = (l2.map Asset.assetHash).getD j "") →
            resolveDeployId l1 false ≠ resolveDeployId l2 false)) := by
  intro hall
  obtain ⟨m, n, hmn, hhex⟩ := md5_collision
  have h := (hall [ { name := "Asset0", assetHash := encStr m } ]
      [ { name := "Asset0", assetHash := encStr n } ]).2 rfl 0 (by simp)
    (by
      simp only [List.map_cons, List.map_nil, List.getD_cons_zero]
      exact fun he => hmn (encStr_injective he))
    (by
      intro j hj hj0
      simp only [List.length_cons, List.length_nil] at hj
      omega)
  apply h
  rw [resolveDeployId_false, resolveDeployId_false]
  simp only [List.map_cons, List.map_nil]
  rw [stringJoinSingleton, stringJoinSingleton, hhex]

/-- Claim C2 amended: sequences with identical fingerprints in identical
order resolve to the same identity; and with dev mode off, two sequences
resolve to the same identity exactly when the MD5 digests of their
concatenated fingerprints agree — so a differing fingerprint changes the
identity unless the concatenations' MD5 digests collide. -/
theorem deployId_determinism_and_digest (l1 l2 l3 l4 : List Asset) (b : Bool)
    (heq : l3.map Asset.assetHash = l4.map Asset.assetHash) :
    resolveDeployId l3 b = resolveDeployId l4 b ∧
    (resolveDeployId l1 false = resolveDeployId l2 false ↔
      md5Hex (strBytes (String.join (l1.map Asset.assetHash))) =
        md5Hex (strBytes (String.join (l2.map Asset.assetHash)))) := by
  constructor
  · unfold resolveDeployId
    rw [heq]
  · rw [resolveDeployId_false, resolveDeployId_false]
    constructor
    · exact fun h => strAppendLeftCancel h
    · exact fun h => by rw [h]

/-- Witness for the amended claim C2 at concrete sequences. -/
theorem deployId_determinism_and_digest_witness :
    ([ { name := "A", assetHash := "x" } ] : List Asset).map Asset.assetHash =
      ([ { name := "B", assetHash := "x" } ] : List Asset).map Asset.assetHash ∧
    (resolveDeployId [ { name := "A", assetHash := "x" } ] false =
        resolveDeployId [ { name := "B", assetHash := "x" } ] false ∧
      (resolveDeployId [] false = resolveDeployId [] false ↔
        md5Hex (strBytes (String.join (([] : List Asset).map Asset.assetHash))) =
          md5Hex (strBytes (String.join (([] : List Asset).map Asset.assetHash))))) :=
  ⟨rfl, deployId_determinism_and_digest [] []
    [ { name := "A", assetHash := "x" } ] [ { name := "B", assetHash := "x" } ] false rfl⟩

/-- Claim C3: rule compilation appends, after any user-supplied
`replaceValues`, exactly two rules per declared variable KEY, one for the
`**/*.js` glob and one for `index.html`, both searching for the token of
KEY (two opening braces, one space, KEY, one space, two closing braces) and
replacing it with the declared value. -/
theorem replaceValues_env_rules (user : List ReplaceProp) (env : List (String × String)) :
    compileReplaceValues user env =
      user ++ (env.map (fun kv =>
        [ { files := "**/*.js", search := envToken kv.1, replace := kv.2 },
          { files := "index.html", search := envToken kv.1, replace := kv.2 } ])).flatten :=
  compileReplaceValues_eq user env

/-- Claim C4: with dev mode and skip-build off, `buildApp` fails naming the
resolved offending path when the site path (inputs `i1`) or the resolved
build-output path (inputs `i2`) does not exist, and fails with an error
distinct from both of those when the build output exists but holds zero
files (inputs `i3`, where the spec-modelled bundler rejects an empty
tree). -/
theorem buildApp_missing_and_empty (i1 i2 i3 : BuildInputs)
    (d1 : i1.isSstStart = false) (k1 : i1.skipBuild = false)
    (f1 : i1.fsExists i1.sitePath = false)
    (d2 : i2.isSstStart = false) (k2 : i2.skipBuild = false)
    (f2 : i2.fsExists i2.sitePath = true) (c2 : i2.buildCmdOk = true)
    (o2 : i2.fsExists (i2.resolveJoin i2.sitePath (strOrDefault i2.buildOutput ".")) = false)
    (d3 : i3.isSstStart = false) (k3 : i3.skipBuild = false)
    (f3 : i3.fsExists i3.sitePath = true) (c3 : i3.buildCmdOk = true)
    (o3 : i3.fsExists (i3.resolveJoin i3.sitePath (strOrDefault i3.buildOutput ".")) = true)
    (t3 : i3.outputTree = []) :
    buildApp i1 = Except.error (BuildError.noPathFound (i1.resolvePath i1.sitePath) i1.nodeId) ∧
    buildErrorMessage (BuildError.noPathFound (i1.resolvePath i1.sitePath) i1.nodeId) =
      "No path found at \"" ++ i1.resolvePath i1.sitePath ++ "\" for the \"" ++
        i1.nodeId ++ "\" StaticSite." ∧
    buildApp i2 = Except.error (BuildError.noBuildOutput
      (i2.resolveJoin i2.sitePath (strOrDefault i2.buildOutput ".")) i2.nodeId) ∧
    buildErrorMessage (BuildError.noBuildOutput
        (i2.resolveJoin i2.sitePath (strOrDefault i2.buildOutput ".")) i2.nodeId) =
      "No build output found at \"" ++
        i2.resolveJoin i2.sitePath (strOrDefault i2.buildOutput ".") ++ "\" for the \"" ++
        i2.nodeId ++ "\" StaticSite." ∧
    buildApp i3 = Except.error (BuildError.packageFailed i3.nodeId) ∧
    BuildError.packageFailed i3.nodeId ≠
      BuildError.noPathFound (i1.resolvePath i1.sitePath) i1.nodeId ∧
    BuildError.packageFailed i3.nodeId ≠
      BuildError.noBuildOutput
        (i2.resolveJoin i2.sitePath (strOrDefault i2.buildOutput ".")) i2.nodeId := by
  refine ⟨?_, rfl, ?_, rfl, ?_, ?_, ?_⟩
  · simp [buildApp, d1, k1, f1]
  · simp [buildApp, d2, k2, f2, c2, o2]
  · simp [buildApp, d3, k3, f3, c3, o3, t3, bundlerSplit]
  · intro h
    exact BuildError.noConfusion h
  · intro h
    exact BuildError.noConfusion h

/-- Witness for claim C4 at three concrete input records. -/
theorem buildApp_missing_and_empty_witness :
    (sampleMissingSite.fsExists sampleMissingSite.sitePath = false ∧
      sampleMissingOutput.fsExists sampleMissingOutput.sitePath = true ∧
      sampleMissingOutput.fsExists (sampleMissingOutput.resolveJoin
        sampleMissingOutput.sitePath (strOrDefault sampleMissingOutput.buildOutput ".")) = false ∧
      sampleEmptyOutput.outputTree = []) ∧
    (buildApp sampleMissingSite = Except.error (BuildError.noPathFound
        (sampleMissingSite.resolvePath sampleMissingSite.sitePath) sampleMissingSite.nodeId) ∧
      buildErrorMessage (BuildError.noPathFound
          (sampleMissingSite.resolvePath sampleMissingSite.sitePath) sampleMissingSite.nodeId) =
        "No path found at \"" ++ sampleMissingSite.resolvePath sampleMissingSite.sitePath ++
          "\" for the \"" ++ sampleMissingSite.nodeId ++ "\" StaticSite." ∧
      buildApp sampleMissingOutput = Except.error (BuildError.noBuildOutput
        (sampleMissingOutput.resolveJoin sampleMissingOutput.sitePath
          (strOrDefault sampleMissingOutput.buildOutput ".")) sampleMissingOutput.nodeId) ∧
      buildErrorMessage (BuildError.noBuildOutput
          (sampleMissingOutput.resolveJoin sampleMissingOutput.sitePath
            (strOrDefault sampleMissingOutput.buildOutput ".")) sampleMissingOutput.nodeId) =
        "No build output found at \"" ++ sampleMissingOutput.resolveJoin
            sampleMissingOutput.sitePath (strOrDefault sampleMissingOutput.buildOutput ".") ++
          "\" for the \"" ++ sampleMissingOutput.nodeId ++ "\" StaticSite." ∧
      buildApp sampleEmptyOutput = Except.error
        (BuildError.packageFailed sampleEmptyOutput.nodeId) ∧
      BuildError.packageFailed sampleEmptyOutput.nodeId ≠
        BuildError.noPathFound (sampleMissingSite.resolvePath sampleMissingSite.sitePath)
          sampleMissingSite.nodeId ∧
      BuildError.packageFailed sampleEmptyOutput.nodeId ≠
        BuildError.noBuildOutput (sampleMissingOutput.resolveJoin sampleMissingOutput.sitePath
          (strOrDefault sampleMissingOutput.buildOutput ".")) sampleMissingOutput.nodeId) :=
  ⟨⟨by decide, by decide, by decide, rfl⟩,
    buildApp_missing_and_empty sampleMissingSite sampleMissingOutput sampleEmptyOutput
      rfl rfl (by decide) rfl rfl (by decide) rfl (by decide)
      rfl rfl (by decide) rfl (by decide) rfl⟩

/-- Claim C5: the asset list built from the archiver output contains exactly
the parts with contiguous indices `0, ..., n - 1`, where `n` is the least
index whose part file does not exist: the loop starts at part 0, probes
existence in increasing index order, and stops at the first missing part. -/
theorem asset_collection_contiguous (parts : Finset ℕ) (partHash : Nat → String) (n : ℕ)
    (hmem : ∀ i, i < n → i ∈ parts) (hnot : n ∉ parts) :
    collectAssets parts partHash =
      (List.range n).map (fun i =>
        { name := "Asset" ++ toString i, assetHash := partHash i }) := by
  rw [collectAssets, collectParts_eq_range parts n hmem hnot]

/-- Witness for claim C5 with parts 0 and 1 present and part 2 missing. -/
theorem asset_collection_contiguous_witness :
    (2 ∉ Finset.range 2) ∧
    collectAssets (Finset.range 2) (fun _ => "h") =
      (List.range 2).map (fun i =>
        { name := "Asset" ++ toString i, assetHash := "h" }) :=
  ⟨by decide, asset_collection_contiguous (Finset.range 2) (fun _ => "h") 2
    (fun i hi => Finset.mem_range.mpr hi) (by decide)⟩

/-- Claim C6: every constructor run creates exactly one deployment custom
resource, and its `DistributionPaths` property is exactly the one-element
full-invalidation path list. -/
theorem deployment_invalidation_paths (user : List ReplaceProp) (env : List (String × String))
    (b : Bool) (assets : List Asset) :
    (sstConstructAfterBuild user env b assets).customResources.length = 1 ∧
    (sstConstructAfterBuild user env b assets).customResources.map
      SstDeploymentProps.distributionPaths = [ [ "/*" ] ] :=
  ⟨rfl, rfl⟩

/-- Claim C7: the destination key prefix of the single deployment custom
resource (`DestinationBucketKeyPrefix`) and the CloudFront origin path both
equal the resolved deployment identity. -/
theorem origin_and_destination_use_deployId (user : List ReplaceProp)
    (env : List (String × String)) (b : Bool) (assets : List Asset) :
    (sstConstructAfterBuild user env b assets).originPath =
      (sstConstructAfterBuild user env b assets).deployId ∧
    (sstConstructAfterBuild user env b assets).customResources.map
      SstDeploymentProps.destinationBucketKeyRoot =
      [ (sstConstructAfterBuild user env b assets).deployId ] :=
  ⟨rfl, rfl⟩

/-- Claim C8: the environment handed to the build command binds every
declared variable KEY to its placeholder token, not to the declared value;
the declared value instead appears as the replacement of the two
substitution rules generated for KEY. -/
theorem build_command_env_tokens (processEnv : String → Option String)
    (user : List ReplaceProp) (declared : List (String × String)) (k v : String)
    (hv : (k, v) ∈ declared) :
    buildCommandEnv processEnv declared k = some (envToken k) ∧
    ({ files := "**/*.js", search := envToken k, replace := v } : ReplaceProp) ∈
      compileReplaceValues user declared ∧
    ({ files := "index.html", search := envToken k, replace := v } : ReplaceProp) ∈
      compileReplaceValues user declared := by
  have hk : k ∈ declared.map Prod.fst := List.mem_map.mpr ⟨(k, v), hv, rfl⟩
  have he : constructorEnv declared k = some (envToken k) :=
    envFold_mem declared k hk (envLookup declared)
  refine ⟨?_, ?_, ?_⟩
  · simp [buildCommandEnv, he]
  · rw [compileReplaceValues_eq]
    exact List.mem_append_right _ (List.mem_flatten.mpr
      ⟨_, List.mem_map.mpr ⟨(k, v), hv, rfl⟩, by simp⟩)
  · rw [compileReplaceValues_eq]
    exact List.mem_append_right _ (List.mem_flatten.mpr
      ⟨_, List.mem_map.mpr ⟨(k, v), hv, rfl⟩, by simp⟩)

/-- Witness for claim C8 with one declared variable. -/
theorem build_command_env_tokens_witness :
    (("K", "val") ∈ [ ("K", "val") ]) ∧
    (buildCommandEnv (fun _ => none) [ ("K", "val") ] "K" = some (envToken "K") ∧
      ({ files := "**/*.js", search := envToken "K", replace := "val" } : ReplaceProp) ∈
        compileReplaceValues [] [ ("K", "val") ] ∧
      ({ files := "index.html", search := envToken "K", replace := "val" } : ReplaceProp) ∈
        compileReplaceValues [] [ ("K", "val") ]) :=
  ⟨by decide, build_command_env_tokens (fun _ => none) [] [ ("K", "val") ] "K" "val"
    (by decide)⟩

/-- Claim C9: with skip-build on and dev mode off, `buildApp` returns the
stub asset without consulting the filesystem (the inputs quantify over
every filesystem, including one where no path exists), and the resulting
identity is the content-addressed `deploy-` hash of the stub fingerprint,
not the sentinel; the sentinel arises exactly when dev mode is on. -/
theorem skip_build_stub_identity (i : BuildInputs) (user : List ReplaceProp)
    (env : List (String × String)) (others : List Asset) (b : Bool)
    (hs : i.isSstStart = false) (hk : i.skipBuild = true) :
    buildApp i = Except.ok [ { name := "Asset", assetHash := i.stubHash } ] ∧
    (sstConstructAfterBuild user env i.isSstStart
        [ { name := "Asset", assetHash := i.stubHash } ]).deployId =
      "deploy-" ++ md5Hex (strBytes i.stubHash) ∧
    "deploy-" ++ md5Hex (strBytes i.stubHash) ≠ "deploy-live" ∧
    ((resolveDeployId others b = "deploy-live") ↔ b = true) := by
  refine ⟨?_, ?_, deployHash_ne_live _, resolve_live_iff others b⟩
  · simp [buildApp, hs, hk]
  · rw [hs]
    show resolveDeployId [ { name := "Asset", assetHash := i.stubHash } ] false = _
    rw [resolveDeployId_false]
    simp only [List.map_cons, List.map_nil]
    rw [stringJoinSingleton]

/-- Witness for claim C9 on a filesystem where nothing exists. -/
theorem skip_build_stub_identity_witness :
    sampleSkipBuild.isSstStart = false ∧ sampleSkipBuild.skipBuild = true ∧
    (buildApp sampleSkipBuild =
        Except.ok [ { name := "Asset", assetHash := sampleSkipBuild.stubHash } ] ∧
      (sstConstructAfterBuild [] [] sampleSkipBuild.isSstStart
          [ { name := "Asset", assetHash := sampleSkipBuild.stubHash } ]).deployId =
        "deploy-" ++ md5Hex (strBytes sampleSkipBuild.stubHash) ∧
      "deploy-" ++ md5Hex (strBytes sampleSkipBuild.stubHash) ≠ "deploy-live" ∧
      ((resolveDeployId [] false = "deploy-live") ↔ false = true)) :=
  ⟨rfl, rfl, skip_build_stub_identity sampleSkipBuild [] [] [] false rfl rfl⟩

/-- Claim C10 is false as stated: for a structured external custom domain
with a certificate and `domainAlias` set to the empty string, validation
does not throw, because the source tests JavaScript truthiness and the
empty string is falsy. -/
theorem custom_domain_empty_alias_cex :
    validateCustomDomainSettings (some (CustomDomain.structured
      { domainName := "example.com", domainAlias := some "", hostedZone := none,
        certificate := some (), isExternalDomain := some true })) = Except.ok () ∧
    ({ domainName := "example.com", domainAlias := some "", hostedZone := none,
        certificate := some (), isExternalDomain := some true } :
      StaticSiteDomainProps).domainAlias = some "" :=
  ⟨rfl, rfl⟩

/-- Claim C10 amended: validation never throws for an absent or
plain-string custom domain; for a structured domain it throws exactly when
`isExternalDomain` is `true` and the certificate is missing, or the
`domainAlias` is a nonempty string, or the `hostedZone` is a nonempty zone
name or a construct; each thrown error is the fixed message naming the
offending setting. -/
theorem custom_domain_validation_characterized (d : StaticSiteDomainProps) (s : String) :
    validateCustomDomainSettings none = Except.ok () ∧
    validateCustomDomainSettings (some (CustomDomain.plain s)) = Except.ok () ∧
    (validateCustomDomainSettings (some (CustomDomain.structured d)) = Except.ok () ↔
      ¬(d.isExternalDomain = some true ∧
        (d.certificate = none ∨ optStrTruthy d.domainAlias = true ∨
          hostedZoneTruthy d.hostedZone = true))) ∧
    (validateCustomDomainSettings (some (CustomDomain.structured d)) =
        Except.error certRequiredMsg ↔
      d.isExternalDomain = some true ∧ d.certificate = none) ∧
    (validateCustomDomainSettings (some (CustomDomain.structured d)) =
        Except.error domainAliasMsg ↔
      d.isExternalDomain = some true ∧ d.certificate ≠ none ∧
        optStrTruthy d.domainAlias = true) ∧
    (validateCustomDomainSettings (some (CustomDomain.structured d)) =
        Except.error hostedZoneMsg ↔
      d.isExternalDomain = some true ∧ d.certificate ≠ none ∧
        optStrTruthy d.domainAlias = false ∧ hostedZoneTruthy d.hostedZone = true) := by
  have m12 : certRequiredMsg ≠ domainAliasMsg := by decide
  have m13 : certRequiredMsg ≠ hostedZoneMsg := by decide
  have m23 : domainAliasMsg ≠ hostedZoneMsg := by decide
  have m21 : domainAliasMsg ≠ certRequiredMsg := m12.symm
  have m31 : hostedZoneMsg ≠ certRequiredMsg := m13.symm
  have m32 : hostedZoneMsg ≠ domainAliasMsg := m23.symm
  refine ⟨rfl, rfl, ?_, ?_, ?_, ?_⟩ <;>
    · simp only [validateCustomDomainSettings]
      split_ifs with h1 h2 h3 h4 <;>
        simp_all [Option.isNone_iff_eq_none]
